import Mathlib

/-!
Verification development for a pair of model-inference HTTP services and a
config maintenance script.

The embedding covers:
* `TTS` — the Qwen3-TTS FastAPI service (`docker/tts/main.py`): request
  validation, the health endpoint, the fallback audio synthesizer and the
  load-state gating of the two speech endpoints.
* `Qwen3Omni` — the Qwen3-Omni FastAPI service
  (`docker/qwen3-omni-server/service.py`): the background loader state
  machine, the health endpoint, and the load-state gating and generation
  parameters of the two text endpoints.
* `FixConfig` — the config patcher (`scripts/fix_qwen3_omni_config.py`),
  modelled over a small JSON value type with insertion-ordered objects
  (mirroring Python dict semantics).

Numeric request fields (`speed`, `temperature`) and the audio duration are
modelled over `ℚ`; the Python source computes them in IEEE floats, but every
property below is exact rational arithmetic on small values.
-/

namespace TTS

/-- `any(u4e00 <= c <= u9fff for c in text)` from
`generate_fallback_audio` (main.py:96). -/
def hasChinese (text : String) : Bool :=
  text.data.any (fun c => 0x4e00 ≤ c.toNat && c.toNat ≤ 0x9fff)

/-- `chars_per_sec = 3.0 if has_chinese else 5.0` (main.py:97). -/
def charsPerSec (text : String) : ℚ :=
  if hasChinese text then 3 else 5

/-- `duration = max(1.0, len(text) / chars_per_sec / speed)` (main.py:98). -/
def fallbackDuration (text : String) (speed : ℚ) : ℚ :=
  max 1 ((text.length : ℚ) / charsPerSec text / speed)

/-- `int(sample_rate * duration)`: the sample count of the synthetic tone
(main.py:100). -/
def fallbackNumSamples (text : String) (speed : ℚ) (sample_rate : ℕ) : ℤ :=
  ⌊(sample_rate : ℚ) * fallbackDuration text speed⌋

/-- Pydantic validation of `TTSRequest` (main.py:36-41): `text` has
`min_length=1, max_length=5000`, `speed` has `ge=0.5, le=2.0`. -/
def validTTSRequest (text : String) (speed : ℚ) : Prop :=
  1 ≤ text.length ∧ text.length ≤ 5000 ∧ (1 : ℚ)/2 ≤ speed ∧ speed ≤ 2

instance (text : String) (speed : ℚ) : Decidable (validTTSRequest text speed) := by
  unfold validTTSRequest; infer_instance

/-- Pydantic validation of `OpenAITTSRequest` (main.py:219-225): `input` has
`min_length=1, max_length=5000`, `speed` has `ge=0.25, le=4.0`. -/
def validOpenAITTSRequest (input : String) (speed : ℚ) : Prop :=
  1 ≤ input.length ∧ input.length ≤ 5000 ∧ (1 : ℚ)/4 ≤ speed ∧ speed ≤ 4

instance (input : String) (speed : ℚ) : Decidable (validOpenAITTSRequest input speed) := by
  unfold validOpenAITTSRequest; infer_instance

/-- The mutable globals of the TTS process (main.py:32-33): `model_loaded`
and whether `model is not None`.  `DEVICE` is the environment-derived
constant echoed by the health endpoint. -/
structure TTSState where
  model_loaded : Bool
  model_present : Bool
  DEVICE : String
deriving Repr, DecidableEq

/-- Body of a `TTSRequest` as it reaches the handler (already validated). -/
structure TTSRequest where
  text : String
  voice : String
  speed : ℚ
  response_format : String
deriving Repr, DecidableEq

/-- Body of an `OpenAITTSRequest` as it reaches the handler. -/
structure OpenAITTSRequest where
  model : String
  input : String
  voice : String
  response_format : String
  speed : ℚ
deriving Repr, DecidableEq

/-- Outcome of a speech endpoint handler: either it proceeds to the real
voice-clone generation of the real model, or it serves the synthetic fallback audio
(an HTTP 200 JSON response carrying the given duration), or it raises an
`HTTPException` with the given status code and detail. -/
inductive TTSOutcome where
  | modelGenerate : TTSOutcome
  | fallbackResponse (duration : ℚ) : TTSOutcome
  | httpError (code : ℕ) (detail : String) : TTSOutcome
deriving Repr, DecidableEq

/-- HTTP status code of a `TTSOutcome` (FastAPI returns 200 for a plain
return value). -/
def ttsStatusCode : TTSOutcome → ℕ
  | .modelGenerate => 200
  | .fallbackResponse _ => 200
  | .httpError code _ => code

/-- `POST /v1/tts` (main.py:144-210): `if model is not None and model_loaded`
use the real model, `else` serve fallback audio built by
`generate_fallback_audio(request.text, request.speed)`.  There is no
load-state rejection on this endpoint. -/
def text_to_speech (s : TTSState) (r : TTSRequest) : TTSOutcome :=
  if s.model_present && s.model_loaded then
    .modelGenerate
  else
    .fallbackResponse (fallbackDuration r.text r.speed)

/-- `POST /v1/audio/speech` (main.py:228-244): `if model is None or not
model_loaded: raise HTTPException(status_code=503, detail="Model not
loaded")`, otherwise proceed to the real model. -/
def openai_compatible_tts (s : TTSState) (_r : OpenAITTSRequest) : TTSOutcome :=
  if !s.model_present || !s.model_loaded then
    .httpError 503 "Model not loaded"
  else
    .modelGenerate

/-- Body returned by `GET /health` (main.py:115-125). -/
structure TTSHealthBody where
  status : String
  model : String
  device : String
  loaded : Bool
  real_model : Bool
  fallback_mode : Bool
deriving Repr, DecidableEq

/-- `GET /health` (main.py:115-125): a plain return (HTTP 200) whose
`status` field is the literal `"healthy"` in every state; the load state is
exposed only through `loaded` / `real_model` / `fallback_mode`. -/
def health_check (s : TTSState) : ℕ × TTSHealthBody :=
  (200,
    { status := "healthy"
      model := "Qwen3-TTS-0.6B"
      device := s.DEVICE
      loaded := s.model_loaded
      real_model := s.model_present
      fallback_mode := !s.model_present })

end TTS

namespace Qwen3Omni

/-- The mutable globals of the Omni process (service.py:30-34): the
`model_loading` / `model_loaded` flags, `loading_error`, and
`str(model.device)` when `model` is set (`none` while `model is None`).
`DEVICE` is the environment-derived constant. -/
structure OmniState where
  model_loading : Bool
  model_loaded : Bool
  loading_error : Option String
  model_device : Option String
  DEVICE : String
deriving Repr, DecidableEq

/-- Body of a `ChatRequest` (service.py:42-47).  `max_tokens`,
`temperature` and `stream` are `Optional` Pydantic fields with defaults
`512`, `0.7`, `False`; an explicit JSON `null` makes them `none`.
The conversation itself only feeds the external prompt template, so its
contents are carried opaquely. -/
structure ChatRequest where
  model : String := "/models"
  messages : List (String × String)
  max_tokens : Option ℤ := some 512
  temperature : Option ℚ := some (7/10)
  stream : Option Bool := some false
deriving Repr, DecidableEq

/-- Body of a `TextRequest` (service.py:50-53). -/
structure TextRequest where
  text : String
  max_tokens : Option ℤ := some 512
  temperature : Option ℚ := some (7/10)
deriving Repr, DecidableEq

/-- The keyword arguments both endpoints pass to `model.generate`
(service.py:208-213 and 277-282). -/
structure GenerateCall where
  max_new_tokens : Option ℤ
  temperature : ℚ
  do_sample : Bool
deriving Repr, DecidableEq

/-- Builds the `model.generate` keyword arguments from the request fields:
`max_new_tokens=request.max_tokens, temperature=request.temperature,
do_sample=request.temperature > 0`.  A `None` temperature makes the Python
comparison `request.temperature > 0` raise `TypeError`, which the
per-request handler turns into an HTTP 500. -/
def buildGenerateCall (max_tokens : Option ℤ) (temperature : Option ℚ) :
    Except String GenerateCall :=
  match temperature with
  | none => .error "TypeError: not supported between instances of NoneType and int"
  | some t =>
      .ok { max_new_tokens := max_tokens
            temperature := t
            do_sample := decide (0 < t) }

/-- Outcome of a text endpoint handler: either it proceeds to
`model.generate` with the given keyword arguments, or it raises an
`HTTPException` with the given status code and detail. -/
inductive OmniOutcome where
  | generateCall (g : GenerateCall) : OmniOutcome
  | httpError (code : ℕ) (detail : String) : OmniOutcome
deriving Repr, DecidableEq

/-- HTTP status code of an `OmniOutcome`. -/
def omniStatusCode : OmniOutcome → ℕ
  | .generateCall _ => 200
  | .httpError code _ => code

/-- The load-state gate shared by both text endpoints (service.py:177-181
and 253-257): `if not model_loaded`, raise 503 with a message that depends
on `model_loading`. -/
def notLoadedError (s : OmniState) : OmniOutcome :=
  if s.model_loading then
    .httpError 503 "Model is still loading, please wait..."
  else
    .httpError 503 "Model failed to load"

/-- `POST /v1/chat/completions` (service.py:174-247): gate on
`model_loaded`, then build the templated prompt (external) and call
`model.generate` with the parameters of the request; a `TypeError` from the
`temperature > 0` comparison is caught per-request as HTTP 500. -/
def chat_completion (s : OmniState) (r : ChatRequest) : OmniOutcome :=
  if !s.model_loaded then
    notLoadedError s
  else
    match buildGenerateCall r.max_tokens r.temperature with
    | .ok g => .generateCall g
    | .error e => .httpError 500 e

/-- `POST /inference/text` (service.py:250-300): same gate and the same
generation parameters, for the single-turn request. -/
def text_inference (s : OmniState) (r : TextRequest) : OmniOutcome :=
  if !s.model_loaded then
    notLoadedError s
  else
    match buildGenerateCall r.max_tokens r.temperature with
    | .ok g => .generateCall g
    | .error e => .httpError 500 e

/-- Body of the `HealthResponse` model (service.py:56-61). -/
structure HealthResponse where
  status : String
  model : String
  device : String
  loaded : Bool
  loading : Bool
deriving Repr, DecidableEq

/-- `GET /health` (service.py:146-155): a plain return (HTTP 200) whose
`status` is `"loading"` while `model_loading`, else `"healthy"` when
`model_loaded`, else `"unhealthy"`. -/
def health (s : OmniState) : ℕ × HealthResponse :=
  (200,
    { status :=
        if s.model_loading then "loading"
        else if s.model_loaded then "healthy" else "unhealthy"
      model := "Qwen3-Omni-30B-A3B"
      device := match s.model_device with | some d => d | none => s.DEVICE
      loaded := s.model_loaded
      loading := s.model_loading })

/-- `load_model_async` (service.py:64-117) as a state transformer.  The
result of the external `from_pretrained` calls is abstracted as
`outcome : Except String String` (`ok dev` = success carrying the
device string, `error e` = `str(e)` of the raised exception).  The
function is total: the `try/except/finally` keeps every exception from
propagating out of the loader thread.  Reentry guard: `if model_loading or
model_loaded: return`.  On success: `model_loaded = True; loading_error =
None`.  On failure: `loading_error = str(e)`, `model_loaded` untouched.
Either way `finally: model_loading = False`. -/
def load_model_async (s : OmniState) (outcome : Except String String) : OmniState :=
  if s.model_loading || s.model_loaded then s
  else
    match outcome with
    | .ok dev =>
        { s with model_loading := false, model_loaded := true,
                 loading_error := none, model_device := some dev }
    | .error e =>
        { s with model_loading := false, loading_error := some e }

end Qwen3Omni

namespace FixConfig

/-- JSON values with insertion-ordered object fields, mirroring the Python
dict produced by `json.load` (Python ≥ 3.7 preserves insertion order, and
key assignment of a fresh key appends at the end). -/
inductive Json where
  | null : Json
  | bool (b : Bool) : Json
  | num (n : ℤ) : Json
  | str (s : String) : Json
  | arr (elems : List Json) : Json
  | obj (fields : List (String × Json)) : Json
deriving Repr

/-- First value bound to `key`, as Python dict lookup. -/
def lookupField : List (String × Json) → String → Option Json
  | [], _ => none
  | (k, v) :: rest, key => if k = key then some v else lookupField rest key

/-- Replace the value at the first occurrence of `key`, keeping its
position (Python assignment to an existing dict key). -/
def setField : List (String × Json) → String → Json → List (String × Json)
  | [], _, _ => []
  | (k, v) :: rest, key, newV =>
      if k = key then (k, newV) :: rest else (k, v) :: setField rest key newV

/-- `config[key]` for an object; `none` otherwise. -/
def Json.getKey? : Json → String → Option Json
  | .obj fields, key => lookupField fields key
  | _, _ => none

/-- `key in config` for a dict-shaped value. -/
def Json.hasKey (j : Json) (key : String) : Bool :=
  (j.getKey? key).isSome

/-- Assignment to an existing key of an object. -/
def Json.setKey : Json → String → Json → Json
  | .obj fields, key, v => .obj (setField fields key v)
  | j, _, _ => j

/-- Assignment to a fresh key of an object: appended at the end,
as Python dict insertion order dictates. -/
def Json.addKey : Json → String → Json → Json
  | .obj fields, key, v => .obj (fields ++ [(key, v)])
  | j, _, _ => j

/-- `j` is a JSON object (a Python dict). -/
def Json.isObj : Json → Bool
  | .obj _ => true
  | _ => false

/-- The in-place mutation of `code_predictor_config`
(fix_qwen3_omni_config.py:29-36): add `use_sliding_window = False` if
missing, then add `sliding_window = 72` if missing. -/
def patchCodePredictor (cpc : Json) : Json :=
  let c1 := if cpc.hasKey "use_sliding_window" then cpc
            else cpc.addKey "use_sliding_window" (.bool false)
  if c1.hasKey "sliding_window" then c1
  else c1.addKey "sliding_window" (.num 72)

/-- The value-level effect of the patching block
(fix_qwen3_omni_config.py:19-36): if `talker_config` is present and has a
`code_predictor_config`, patch that nested object in place; otherwise the
config value is untouched. -/
def patchConfig (config : Json) : Json :=
  match config.getKey? "talker_config" with
  | none => config
  | some tc =>
      match tc.getKey? "code_predictor_config" with
      | none => config
      | some cpc =>
          config.setKey "talker_config"
            (tc.setKey "code_predictor_config" (patchCodePredictor cpc))

/-- The two files `fix_config` touches, at the JSON-value level:
`config.json` (always present when the script runs) and the optional
`config.json.backup`. -/
structure FsState where
  config : Json
  backup : Option Json

/-- `fix_config` (fix_qwen3_omni_config.py:13-49): load and patch the
config; `if not os.path.exists(backup_path): os.rename(config_path,
backup_path)` — so a missing backup becomes the original config; then
`json.dump` the patched value to `config_path`. -/
def fix_config (s : FsState) : FsState :=
  let patched := patchConfig s.config
  match s.backup with
  | none => { config := patched, backup := some s.config }
  | some b => { config := patched, backup := some b }

/-- The shapes on which the Python `in` tests and item assignments of
`fix_config` are dict operations (any other shape would raise or do
substring matching in Python): the top-level config is an object, and so
are `talker_config` and `code_predictor_config` whenever present. -/
def wellShaped (c : Json) : Bool :=
  c.isObj &&
    match c.getKey? "talker_config" with
    | none => true
    | some tc =>
        tc.isObj &&
          match tc.getKey? "code_predictor_config" with
          | none => true
          | some cpc => cpc.isObj

end FixConfig

/-! ### Helper lemmas about the fallback audio duration -/

theorem TTS.charsPerSec_pos (t : String) : 0 < charsPerSec t := by
  unfold charsPerSec; split <;> norm_num

theorem TTS.charsPerSec_of_chinese (t : String) (h : hasChinese t = true) :
    charsPerSec t = 3 := by
  simp [charsPerSec, h]

theorem TTS.charsPerSec_of_not_chinese (t : String) (h : hasChinese t = false) :
    charsPerSec t = 5 := by
  simp [charsPerSec, h]

theorem TTS.fallbackDuration_above_floor (t : String) (s : ℚ)
    (h : 1 < fallbackDuration t s) :
    fallbackDuration t s = (t.length : ℚ) / charsPerSec t / s := by
  unfold fallbackDuration at h ⊢
  rcases le_or_lt ((t.length : ℚ) / charsPerSec t / s) 1 with hle | hlt
  · rw [max_eq_left hle] at h; exact absurd h (lt_irrefl 1)
  · exact max_eq_right hlt.le

/-! ### Claims about the fallback audio duration -/

/-- C10: the fallback audio duration has a floor of one second: for every
text and speed, `generate_fallback_audio` returns a duration of at least
`1.0`, and whenever `len(text) / chars_per_sec / speed < 1.0` the returned
duration is exactly `1.0`, regardless of text length or speed. -/
theorem TTS.fallbackDuration_floor (t : String) (s : ℚ) :
    1 ≤ fallbackDuration t s ∧
    ((t.length : ℚ) / charsPerSec t / s < 1 → fallbackDuration t s = 1) :=
  ⟨le_max_left 1 _, fun h => max_eq_left h.le⟩

/-- Witness for C10 at `text = "a"`, `speed = 1`: the quotient
`1 / 5 / 1` is below the floor, so the duration is exactly `1`. -/
theorem TTS.fallbackDuration_floor_witness :
    1 ≤ fallbackDuration "a" 1 ∧ fallbackDuration "a" 1 = 1 := by
  have h : ("a".length : ℚ) / charsPerSec "a" / 1 < 1 := by
    have hz : hasChinese "a" = false := by decide
    rw [charsPerSec_of_not_chinese _ hz]
    norm_num [String.length]
  exact ⟨(fallbackDuration_floor "a" 1).1, (fallbackDuration_floor "a" 1).2 h⟩

/-- C3 counterexample: the exact inverse-proportionality
`duration(text, s1) * s1 = duration(text, s2) * s2` fails at
`text = "hello"` with the in-range speeds `s1 = 1`, `s2 = 2`, because the
one-second floor truncates the `s2` side: the products are `1` and `2`. -/
theorem TTS.fallbackDuration_not_speed_inverse :
    ((1:ℚ)/2 ≤ 1 ∧ (1:ℚ) ≤ 2) ∧ ((1:ℚ)/2 ≤ 2 ∧ (2:ℚ) ≤ 2) ∧
    fallbackDuration "hello" 1 * 1 ≠ fallbackDuration "hello" 2 * 2 := by
  refine ⟨⟨by norm_num, by norm_num⟩, ⟨by norm_num, by norm_num⟩, ?_⟩
  have hz : hasChinese "hello" = false := by decide
  unfold fallbackDuration
  rw [charsPerSec_of_not_chinese _ hz]
  norm_num [String.length]

/-- C3 amended: for a fixed speed the duration is monotone in text length
between texts of the same script class, and the products
`duration(text, s) * s` agree between any two speeds at which the quotient
stays at or above the one-second floor (the original claim fails exactly
when the floor clips one side). -/
theorem TTS.fallbackDuration_monotone_and_speed_inverse
    (t1 t2 t : String) (s s1 s2 : ℚ)
    (hs : 0 < s)
    (hclass : hasChinese t1 = hasChinese t2)
    (hlen : t1.length ≤ t2.length)
    (h1 : 1 ≤ (t.length : ℚ) / charsPerSec t / s1)
    (h2 : 1 ≤ (t.length : ℚ) / charsPerSec t / s2) :
    fallbackDuration t1 s ≤ fallbackDuration t2 s ∧
    fallbackDuration t s1 * s1 = fallbackDuration t s2 * s2 := by
  constructor
  · have hc : charsPerSec t1 = charsPerSec t2 := by
      unfold charsPerSec; rw [hclass]
    unfold fallbackDuration
    rw [hc]
    apply max_le_max le_rfl
    exact (div_le_div_iff_of_pos_right hs).mpr
      ((div_le_div_iff_of_pos_right (charsPerSec_pos t2)).mpr (by exact_mod_cast hlen))
  · have hs1 : s1 ≠ 0 := by
      rintro rfl
      rw [div_zero] at h1
      exact absurd h1 (by norm_num)
    have hs2 : s2 ≠ 0 := by
      rintro rfl
      rw [div_zero] at h2
      exact absurd h2 (by norm_num)
    unfold fallbackDuration
    rw [max_eq_right h1, max_eq_right h2, div_mul_cancel₀ _ hs1,
        div_mul_cancel₀ _ hs2]

/-- Witness for the amended C3 at `t1 = "a"`, `t2 = "ab"`,
`t = "abcdefghij"`, `s = 1`, `s1 = 1`, `s2 = 2`: both quotients
`10 / 5 / 1 = 2` and `10 / 5 / 2 = 1` sit at or above the floor, so the
products agree. -/
theorem TTS.fallbackDuration_monotone_and_speed_inverse_witness :
    fallbackDuration "a" 1 ≤ fallbackDuration "ab" 1 ∧
    fallbackDuration "abcdefghij" 1 * 1 = fallbackDuration "abcdefghij" 2 * 2 := by
  have hz : hasChinese "abcdefghij" = false := by decide
  refine fallbackDuration_monotone_and_speed_inverse "a" "ab" "abcdefghij" 1 1 2
    (by norm_num) (by decide) (by decide) ?_ ?_ <;>
    rw [charsPerSec_of_not_chinese _ hz] <;> norm_num [String.length]

/-- C4: the script heuristic of the fallback path: a text containing a
character in the CJK Unified Ideographs block `U+4E00`-`U+9FFF` is
synthesized at `3.0` characters per second, any other text at `5.0`; hence
above the duration floor, a CJK text reaching the same duration at the same
speed has strictly fewer characters than a non-CJK text. -/
theorem TTS.cjk_rate_and_fewer_chars
    (t t1 t2 : String) (s : ℚ) (hs : 0 < s)
    (h1 : hasChinese t1 = true) (h2 : hasChinese t2 = false)
    (heq : fallbackDuration t1 s = fallbackDuration t2 s)
    (habove : 1 < fallbackDuration t1 s) :
    (hasChinese t = true → charsPerSec t = 3) ∧
    (hasChinese t = false → charsPerSec t = 5) ∧
    t1.length < t2.length := by
  refine ⟨charsPerSec_of_chinese t, charsPerSec_of_not_chinese t, ?_⟩
  have e1 := fallbackDuration_above_floor t1 s habove
  have e2 := fallbackDuration_above_floor t2 s (heq ▸ habove)
  rw [charsPerSec_of_chinese _ h1, div_div] at e1
  rw [charsPerSec_of_not_chinese _ h2, div_div] at e2
  have hdpos : 0 < fallbackDuration t1 s := lt_trans one_pos habove
  have h3s : (3 : ℚ) * s ≠ 0 := by positivity
  have h5s : (5 : ℚ) * s ≠ 0 := by positivity
  have hl1 : (t1.length : ℚ) = fallbackDuration t1 s * (3 * s) :=
    ((eq_div_iff h3s).mp e1).symm
  have hl2 : (t2.length : ℚ) = fallbackDuration t1 s * (5 * s) := by
    rw [heq]; exact ((eq_div_iff h5s).mp (heq ▸ e2)).symm
  have hcast : (t1.length : ℚ) < (t2.length : ℚ) := by
    rw [hl1, hl2]
    have : (0:ℚ) < fallbackDuration t1 s * s := mul_pos hdpos hs
    nlinarith
  exact_mod_cast hcast

/-- Witness for C4 at `t1` six CJK characters, `t2` ten ASCII characters,
`s = 1`: both durations are `2` seconds, above the floor, and `6 < 10`. -/
theorem TTS.cjk_rate_and_fewer_chars_witness :
    (hasChinese "你好" = true → charsPerSec "你好" = 3) ∧
    (hasChinese "你好" = false → charsPerSec "你好" = 5) ∧
    "你好你好你好".length < "abcdefghij".length := by
  have hz1 : hasChinese "你好你好你好" = true := by decide
  have hz2 : hasChinese "abcdefghij" = false := by decide
  have hd1 : fallbackDuration "你好你好你好" 1 = 2 := by
    unfold fallbackDuration
    rw [charsPerSec_of_chinese _ hz1]
    norm_num [String.length]
  have hd2 : fallbackDuration "abcdefghij" 1 = 2 := by
    unfold fallbackDuration
    rw [charsPerSec_of_not_chinese _ hz2]
    norm_num [String.length]
  exact cjk_rate_and_fewer_chars "你好" "你好你好你好" "abcdefghij" 1
    (by norm_num) hz1 hz2 (by rw [hd1, hd2]) (by rw [hd1]; norm_num)

/-! ### Claims about request validation and endpoint gating -/

/-- C9 counterexample: the OpenAI-compatible speech endpoint accepts
`speed = 3`, which lies outside `[0.5, 2.0]`, because `OpenAITTSRequest`
declares `ge=0.25, le=4.0` rather than `ge=0.5, le=2.0`. -/
theorem TTS.openai_speed_validation_wider :
    validOpenAITTSRequest "hi" 3 ∧ ¬ ((1:ℚ)/2 ≤ 3 ∧ (3:ℚ) ≤ 2) := by
  constructor
  · refine ⟨?_, ?_, ?_, ?_⟩ <;> norm_num [String.length]
  · rintro ⟨-, h⟩
    norm_num at h

/-- C9 amended: `/v1/tts` validates `speed` against `[0.5, 2.0]` and
`/v1/audio/speech` validates it against `[0.25, 4.0]`; for a text of
admissible length each endpoint accepts exactly the speeds inside its own
range. -/
theorem TTS.speed_validation_ranges (text : String) (s : ℚ)
    (h1 : 1 ≤ text.length) (h2 : text.length ≤ 5000) :
    (validTTSRequest text s ↔ ((1:ℚ)/2 ≤ s ∧ s ≤ 2)) ∧
    (validOpenAITTSRequest text s ↔ ((1:ℚ)/4 ≤ s ∧ s ≤ 4)) := by
  unfold validTTSRequest validOpenAITTSRequest
  constructor <;> constructor
  · rintro ⟨-, -, ha, hb⟩; exact ⟨ha, hb⟩
  · rintro ⟨ha, hb⟩; exact ⟨h1, h2, ha, hb⟩
  · rintro ⟨-, -, ha, hb⟩; exact ⟨ha, hb⟩
  · rintro ⟨ha, hb⟩; exact ⟨h1, h2, ha, hb⟩

/-- Witness for the amended C9 at `text = "hi"`, `s = 1`: both validations
hold, matching both ranges. -/
theorem TTS.speed_validation_ranges_witness :
    (validTTSRequest "hi" 1 ↔ ((1:ℚ)/2 ≤ 1 ∧ (1:ℚ) ≤ 2)) ∧
    (validOpenAITTSRequest "hi" 1 ↔ ((1:ℚ)/4 ≤ 1 ∧ (1:ℚ) ≤ 4)) :=
  speed_validation_ranges "hi" 1 (by norm_num [String.length])
    (by norm_num [String.length])

/-- C1 counterexample: with the model absent and not loaded, a `/v1/tts`
request is served with HTTP 200 fallback audio instead of the claimed 503:
the handler has no load-state rejection and proceeds to the synthetic
generation. -/
theorem TTS.tts_endpoint_serves_fallback_while_unloaded :
    text_to_speech ⟨false, false, "cpu"⟩ ⟨"hi", "default", 1, "wav"⟩ =
      TTSOutcome.fallbackResponse 1 ∧
    ttsStatusCode (text_to_speech ⟨false, false, "cpu"⟩ ⟨"hi", "default", 1, "wav"⟩) = 200 := by
  have hd : fallbackDuration "hi" 1 = 1 := by
    have hz : hasChinese "hi" = false := by decide
    unfold fallbackDuration
    rw [charsPerSec_of_not_chinese _ hz]
    norm_num [String.length]
  constructor
  · show TTSOutcome.fallbackResponse (fallbackDuration "hi" 1) =
      TTSOutcome.fallbackResponse 1
    rw [hd]
  · rfl

/-- C1 amended: while the state is not loaded, `/v1/chat/completions`,
`/inference/text` and `/v1/audio/speech` all reject with HTTP 503 before
any generation; `/v1/tts` alone does not reject and instead serves the
synthetic fallback audio with HTTP 200. -/
theorem not_loaded_gating
    (so : Qwen3Omni.OmniState) (st : TTS.TTSState)
    (cr : Qwen3Omni.ChatRequest) (tr : Qwen3Omni.TextRequest)
    (rt : TTS.TTSRequest) (ro : TTS.OpenAITTSRequest)
    (ho : so.model_loaded = false) (ht : st.model_loaded = false) :
    Qwen3Omni.omniStatusCode (Qwen3Omni.chat_completion so cr) = 503 ∧
    Qwen3Omni.omniStatusCode (Qwen3Omni.text_inference so tr) = 503 ∧
    TTS.ttsStatusCode (TTS.openai_compatible_tts st ro) = 503 ∧
    TTS.text_to_speech st rt =
      TTS.TTSOutcome.fallbackResponse (TTS.fallbackDuration rt.text rt.speed) := by
  refine ⟨?_, ?_, ?_, ?_⟩
  · unfold Qwen3Omni.chat_completion Qwen3Omni.notLoadedError
    rw [ho]
    cases so.model_loading <;> rfl
  · unfold Qwen3Omni.text_inference Qwen3Omni.notLoadedError
    rw [ho]
    cases so.model_loading <;> rfl
  · unfold TTS.openai_compatible_tts
    rw [ht]
    cases st.model_present <;> rfl
  · unfold TTS.text_to_speech
    rw [ht]
    cases st.model_present <;> rfl

/-- Witness for the amended C1 at a failed-load state on both services. -/
theorem not_loaded_gating_witness :
    Qwen3Omni.omniStatusCode
      (Qwen3Omni.chat_completion ⟨false, false, some "boom", none, "cpu"⟩
        ⟨"/models", [("user", "hi")], some 512, some (7/10), some false⟩) = 503 ∧
    Qwen3Omni.omniStatusCode
      (Qwen3Omni.text_inference ⟨false, false, some "boom", none, "cpu"⟩
        ⟨"hi", some 512, some (7/10)⟩) = 503 ∧
    TTS.ttsStatusCode
      (TTS.openai_compatible_tts ⟨false, false, "cpu"⟩
        ⟨"qwen3-tts", "hi", "alloy", "wav", 1⟩) = 503 ∧
    TTS.text_to_speech ⟨false, false, "cpu"⟩ ⟨"hi", "default", 1, "wav"⟩ =
      TTS.TTSOutcome.fallbackResponse (TTS.fallbackDuration "hi" 1) :=
  not_loaded_gating _ _ _ _ _ _ rfl rfl

/-! ### Claims about the health endpoints and the loader -/

/-- C2 counterexample: the TTS health endpoint reports `status: "healthy"`
even when the model never loaded (`model_loaded = False`, `model is None`),
where the claim requires `"unhealthy"`; its `status` field is a constant
literal. -/
theorem TTS.health_status_constant_while_unloaded :
    (health_check ⟨false, false, "cpu"⟩).2.loaded = false ∧
    (health_check ⟨false, false, "cpu"⟩).2.status = "healthy" ∧
    (health_check ⟨false, false, "cpu"⟩).2.status ≠ "unhealthy" := by
  refine ⟨rfl, rfl, ?_⟩
  decide

/-- C2 amended: both health endpoints always succeed with HTTP 200; the
text-service `status` field reflects the loader state exactly (`"loading"`
while loading, `"healthy"` after a successful load, `"unhealthy"`
otherwise), while the TTS `status` field is always `"healthy"` and exposes
the load state only through its `loaded` flag. -/
theorem health_endpoints_reflect_state
    (so : Qwen3Omni.OmniState) (st : TTS.TTSState) :
    (Qwen3Omni.health so).1 = 200 ∧ (TTS.health_check st).1 = 200 ∧
    (so.model_loading = true → (Qwen3Omni.health so).2.status = "loading") ∧
    (so.model_loading = false → so.model_loaded = true →
      (Qwen3Omni.health so).2.status = "healthy") ∧
    (so.model_loading = false → so.model_loaded = false →
      (Qwen3Omni.health so).2.status = "unhealthy") ∧
    (TTS.health_check st).2.status = "healthy" ∧
    (TTS.health_check st).2.loaded = st.model_loaded := by
  refine ⟨rfl, rfl, ?_, ?_, ?_, rfl, rfl⟩
  · intro h
    simp [Qwen3Omni.health, h]
  · intro h h'
    simp [Qwen3Omni.health, h, h']
  · intro h h'
    simp [Qwen3Omni.health, h, h']

/-- Witness for the amended C2: the three loader states of the text
service map to the three status strings, and the TTS endpoint reports
`"healthy"` while unloaded. -/
theorem health_endpoints_reflect_state_witness :
    (Qwen3Omni.health ⟨true, false, none, none, "cpu"⟩).2.status = "loading" ∧
    (Qwen3Omni.health ⟨false, true, none, some "cuda:0", "cuda"⟩).2.status = "healthy" ∧
    (Qwen3Omni.health ⟨false, false, some "boom", none, "cpu"⟩).2.status = "unhealthy" ∧
    (TTS.health_check ⟨false, false, "cpu"⟩).2.status = "healthy" :=
  ⟨(health_endpoints_reflect_state ⟨true, false, none, none, "cpu"⟩
      ⟨false, false, "cpu"⟩).2.2.1 rfl,
   (health_endpoints_reflect_state ⟨false, true, none, some "cuda:0", "cuda"⟩
      ⟨false, false, "cpu"⟩).2.2.2.1 rfl rfl,
   (health_endpoints_reflect_state ⟨false, false, some "boom", none, "cpu"⟩
      ⟨false, false, "cpu"⟩).2.2.2.2.1 rfl rfl,
   (health_endpoints_reflect_state ⟨false, false, some "boom", none, "cpu"⟩
      ⟨false, false, "cpu"⟩).2.2.2.2.2.1⟩

/-- C7: whenever a chat-completion or text-inference request reaches
generation, `model.generate` is called with `do_sample` true exactly when
the temperature of the request is strictly positive, and with
`max_new_tokens` equal to `max_tokens` of the request. -/
theorem Qwen3Omni.generate_sampling_params
    (so : OmniState) (cr : ChatRequest) (tr : TextRequest) (tc tt : ℚ)
    (hl : so.model_loaded = true)
    (hc : cr.temperature = some tc) (ht : tr.temperature = some tt) :
    (∃ g, chat_completion so cr = .generateCall g ∧
      (g.do_sample = true ↔ 0 < tc) ∧
      g.max_new_tokens = cr.max_tokens ∧ g.temperature = tc) ∧
    (∃ g, text_inference so tr = .generateCall g ∧
      (g.do_sample = true ↔ 0 < tt) ∧
      g.max_new_tokens = tr.max_tokens ∧ g.temperature = tt) := by
  constructor
  · refine ⟨⟨cr.max_tokens, tc, decide (0 < tc)⟩, ?_, ?_, rfl, rfl⟩
    · unfold chat_completion
      rw [hl]
      simp [buildGenerateCall, hc]
    · exact decide_eq_true_iff
  · refine ⟨⟨tr.max_tokens, tt, decide (0 < tt)⟩, ?_, ?_, rfl, rfl⟩
    · unfold text_inference
      rw [hl]
      simp [buildGenerateCall, ht]
    · exact decide_eq_true_iff

/-- Witness for C7 at a loaded state and the default request parameters
(`max_tokens = 512`, `temperature = 0.7`). -/
theorem Qwen3Omni.generate_sampling_params_witness :
    (∃ g, chat_completion ⟨false, true, none, some "cuda:0", "cuda"⟩
        ⟨"/models", [("user", "hi")], some 512, some (7/10), some false⟩ =
        .generateCall g ∧
      (g.do_sample = true ↔ (0:ℚ) < 7/10) ∧
      g.max_new_tokens = some 512 ∧ g.temperature = 7/10) ∧
    (∃ g, text_inference ⟨false, true, none, some "cuda:0", "cuda"⟩
        ⟨"hi", some 512, some (7/10)⟩ = .generateCall g ∧
      (g.do_sample = true ↔ (0:ℚ) < 7/10) ∧
      g.max_new_tokens = some 512 ∧ g.temperature = 7/10) :=
  generate_sampling_params ⟨false, true, none, some "cuda:0", "cuda"⟩
    ⟨"/models", [("user", "hi")], some 512, some (7/10), some false⟩
    ⟨"hi", some 512, some (7/10)⟩ (7/10) (7/10) rfl rfl rfl

/-- C8: a failing background load is caught: from the idle state, the
loader stores `str(e)` into `loading_error`, leaves `model_loaded` false,
resets `model_loading` to false (the `finally` block), and — the loader
being a total function here — propagates nothing; the health endpoint
still answers 200 with `"unhealthy"` in the failed state. -/
theorem Qwen3Omni.loader_failure_state (so : OmniState) (e : String)
    (h1 : so.model_loading = false) (h2 : so.model_loaded = false) :
    (load_model_async so (.error e)).loading_error = some e ∧
    (load_model_async so (.error e)).model_loaded = false ∧
    (load_model_async so (.error e)).model_loading = false ∧
    (health (load_model_async so (.error e))).1 = 200 ∧
    (health (load_model_async so (.error e))).2.status = "unhealthy" := by
  unfold load_model_async
  rw [h1, h2]
  simp [health, h2]

/-- Witness for C8: loading `"CUDA out of memory"` as the failure message
from the idle state. -/
theorem Qwen3Omni.loader_failure_state_witness :
    (load_model_async ⟨false, false, none, none, "cpu"⟩
      (.error "CUDA out of memory")).loading_error = some "CUDA out of memory" ∧
    (load_model_async ⟨false, false, none, none, "cpu"⟩
      (.error "CUDA out of memory")).model_loaded = false ∧
    (load_model_async ⟨false, false, none, none, "cpu"⟩
      (.error "CUDA out of memory")).model_loading = false ∧
    (health (load_model_async ⟨false, false, none, none, "cpu"⟩
      (.error "CUDA out of memory"))).1 = 200 ∧
    (health (load_model_async ⟨false, false, none, none, "cpu"⟩
      (.error "CUDA out of memory"))).2.status = "unhealthy" :=
  loader_failure_state ⟨false, false, none, none, "cpu"⟩ "CUDA out of memory" rfl rfl

/-! ### Helper lemmas about the config patcher -/

theorem FixConfig.lookupField_append (fs gs : List (String × FixConfig.Json))
    (k : String) :
    FixConfig.lookupField (fs ++ gs) k =
      (FixConfig.lookupField fs k).orElse (fun _ => FixConfig.lookupField gs k) := by
  induction fs with
  | nil => simp [FixConfig.lookupField]
  | cons hd tl ih =>
    obtain ⟨k', v'⟩ := hd
    by_cases hk : k' = k <;> simp [FixConfig.lookupField, hk, ih]

theorem FixConfig.lookupField_setField_self (fs : List (String × FixConfig.Json))
    (k : String) (v : FixConfig.Json) (h : (FixConfig.lookupField fs k).isSome) :
    FixConfig.lookupField (FixConfig.setField fs k v) k = some v := by
  induction fs with
  | nil => simp [FixConfig.lookupField] at h
  | cons hd tl ih =>
    obtain ⟨k', v'⟩ := hd
    by_cases hk : k' = k
    · simp [FixConfig.lookupField, FixConfig.setField, hk]
    · simp only [FixConfig.lookupField, FixConfig.setField, hk, if_false] at h ⊢
      exact ih h

theorem FixConfig.setField_eq_self (fs : List (String × FixConfig.Json))
    (k : String) (v : FixConfig.Json) (h : FixConfig.lookupField fs k = some v) :
    FixConfig.setField fs k v = fs := by
  induction fs with
  | nil => simp [FixConfig.lookupField] at h
  | cons hd tl ih =>
    obtain ⟨k', v'⟩ := hd
    by_cases hk : k' = k
    · simp only [FixConfig.lookupField, hk, if_true, Option.some.injEq] at h
      simp [FixConfig.setField, hk, h]
    · simp only [FixConfig.lookupField, hk, if_false] at h
      simp [FixConfig.setField, hk, ih h]

theorem FixConfig.hasKey_addKey (fs : List (String × FixConfig.Json))
    (k k' : String) (v : FixConfig.Json) :
    (FixConfig.Json.addKey (.obj fs) k v).hasKey k' =
      ((FixConfig.Json.obj fs).hasKey k' || k = k') := by
  simp only [FixConfig.Json.addKey, FixConfig.Json.hasKey, FixConfig.Json.getKey?,
    FixConfig.lookupField_append]
  cases h : FixConfig.lookupField fs k' with
  | some w => simp [Option.orElse, h]
  | none =>
      by_cases hk : k = k' <;>
        simp [Option.orElse, h, FixConfig.lookupField, hk]

theorem FixConfig.lookupField_append_isSome_left
    (fs gs : List (String × FixConfig.Json)) (k : String)
    (h : (FixConfig.lookupField fs k).isSome = true) :
    (FixConfig.lookupField (fs ++ gs) k).isSome = true := by
  rw [FixConfig.lookupField_append]
  cases hf : FixConfig.lookupField fs k with
  | none => rw [hf] at h; simp at h
  | some w => simp [Option.orElse]

theorem FixConfig.lookupField_append_isSome_right
    (fs gs : List (String × FixConfig.Json)) (k : String)
    (h : (FixConfig.lookupField gs k).isSome = true) :
    (FixConfig.lookupField (fs ++ gs) k).isSome = true := by
  rw [FixConfig.lookupField_append]
  cases hf : FixConfig.lookupField fs k with
  | none => simpa [Option.orElse] using h
  | some w => simp [Option.orElse]

theorem FixConfig.patchCodePredictor_hasKeys (fs : List (String × FixConfig.Json)) :
    (FixConfig.patchCodePredictor (.obj fs)).hasKey "use_sliding_window" = true ∧
    (FixConfig.patchCodePredictor (.obj fs)).hasKey "sliding_window" = true := by
  have husw : ∀ gs : List (String × FixConfig.Json),
      (FixConfig.Json.obj gs).hasKey "use_sliding_window" = true →
      (FixConfig.Json.addKey (.obj gs) "sliding_window" (.num 72)).hasKey
        "use_sliding_window" = true := by
    intro gs hgs
    simp only [FixConfig.Json.addKey, FixConfig.Json.hasKey, FixConfig.Json.getKey?] at hgs ⊢
    exact FixConfig.lookupField_append_isSome_left _ _ _ hgs
  have haddl : ∀ (gs : List (String × FixConfig.Json)) (k : String) (v : FixConfig.Json),
      (FixConfig.Json.addKey (.obj gs) k v).hasKey k = true := by
    intro gs k v
    simp only [FixConfig.Json.addKey, FixConfig.Json.hasKey, FixConfig.Json.getKey?]
    exact FixConfig.lookupField_append_isSome_right _ _ _
      (by simp [FixConfig.lookupField])
  unfold FixConfig.patchCodePredictor
  by_cases h1 : (FixConfig.Json.obj fs).hasKey "use_sliding_window" = true
  · rw [if_pos h1]
    by_cases h2 : (FixConfig.Json.obj fs).hasKey "sliding_window" = true
    · rw [if_pos h2]
      exact ⟨h1, h2⟩
    · rw [if_neg h2]
      exact ⟨husw fs h1, haddl fs _ _⟩
  · rw [if_neg h1]
    have h1' : (FixConfig.Json.addKey (.obj fs) "use_sliding_window"
        (.bool false)).hasKey "use_sliding_window" = true := haddl fs _ _
    by_cases h2 : (FixConfig.Json.addKey (.obj fs) "use_sliding_window"
        (.bool false)).hasKey "sliding_window" = true
    · rw [if_pos h2]
      exact ⟨h1', h2⟩
    · rw [if_neg h2]
      exact ⟨husw (fs ++ [("use_sliding_window", FixConfig.Json.bool false)]) h1',
        haddl (fs ++ [("use_sliding_window", FixConfig.Json.bool false)]) _ _⟩

theorem FixConfig.patchCodePredictor_of_not_obj (cpc : FixConfig.Json)
    (h : cpc.isObj = false) : FixConfig.patchCodePredictor cpc = cpc := by
  cases cpc <;>
    simp_all [FixConfig.patchCodePredictor, FixConfig.Json.hasKey,
      FixConfig.Json.getKey?, FixConfig.Json.addKey, FixConfig.Json.isObj]

theorem FixConfig.patchCodePredictor_fixed (j : FixConfig.Json)
    (h1 : j.hasKey "use_sliding_window" = true)
    (h2 : j.hasKey "sliding_window" = true) :
    FixConfig.patchCodePredictor j = j := by
  simp [FixConfig.patchCodePredictor, h1, h2]

theorem FixConfig.patchCodePredictor_idem (cpc : FixConfig.Json) :
    FixConfig.patchCodePredictor (FixConfig.patchCodePredictor cpc) =
      FixConfig.patchCodePredictor cpc := by
  cases h : cpc.isObj with
  | true =>
      cases cpc with
      | obj fs =>
          obtain ⟨h1, h2⟩ := FixConfig.patchCodePredictor_hasKeys fs
          exact FixConfig.patchCodePredictor_fixed _ h1 h2
      | null => simp [FixConfig.Json.isObj] at h
      | bool b => simp [FixConfig.Json.isObj] at h
      | num n => simp [FixConfig.Json.isObj] at h
      | str s => simp [FixConfig.Json.isObj] at h
      | arr xs => simp [FixConfig.Json.isObj] at h
  | false =>
      rw [FixConfig.patchCodePredictor_of_not_obj cpc h,
        FixConfig.patchCodePredictor_of_not_obj cpc h]

theorem FixConfig.patchConfig_idem (c : FixConfig.Json) :
    FixConfig.patchConfig (FixConfig.patchConfig c) = FixConfig.patchConfig c := by
  cases h1 : c.getKey? "talker_config" with
  | none => simp [FixConfig.patchConfig, h1]
  | some tc =>
    cases h2 : tc.getKey? "code_predictor_config" with
    | none => simp [FixConfig.patchConfig, h1, h2]
    | some cpc =>
      cases c with
      | null => simp [FixConfig.Json.getKey?] at h1
      | bool b => simp [FixConfig.Json.getKey?] at h1
      | num n => simp [FixConfig.Json.getKey?] at h1
      | str s => simp [FixConfig.Json.getKey?] at h1
      | arr xs => simp [FixConfig.Json.getKey?] at h1
      | obj fs =>
        cases tc with
        | null => simp [FixConfig.Json.getKey?] at h2
        | bool b => simp [FixConfig.Json.getKey?] at h2
        | num n => simp [FixConfig.Json.getKey?] at h2
        | str s => simp [FixConfig.Json.getKey?] at h2
        | arr xs => simp [FixConfig.Json.getKey?] at h2
        | obj tfs =>
          simp only [FixConfig.Json.getKey?] at h1 h2
          have hl1 : (FixConfig.lookupField fs "talker_config").isSome = true := by
            rw [h1]; rfl
          have hl2 : (FixConfig.lookupField tfs "code_predictor_config").isSome = true := by
            rw [h2]; rfl
          have hg2 : FixConfig.lookupField
              (FixConfig.setField tfs "code_predictor_config"
                (FixConfig.patchCodePredictor cpc)) "code_predictor_config" =
              some (FixConfig.patchCodePredictor cpc) :=
            FixConfig.lookupField_setField_self _ _ _ hl2
          have hg1 : FixConfig.lookupField
              (FixConfig.setField fs "talker_config"
                (.obj (FixConfig.setField tfs "code_predictor_config"
                  (FixConfig.patchCodePredictor cpc)))) "talker_config" =
              some (.obj (FixConfig.setField tfs "code_predictor_config"
                (FixConfig.patchCodePredictor cpc))) :=
            FixConfig.lookupField_setField_self _ _ _ hl1
          simp only [FixConfig.patchConfig, FixConfig.Json.getKey?, h1, h2,
            FixConfig.Json.setKey, hg1, hg2, FixConfig.patchCodePredictor_idem]
          rw [FixConfig.setField_eq_self _ _ _ hg2,
            FixConfig.setField_eq_self _ _ _ hg1]

/-! ### Claims about the config patcher -/

/-- C5: `fix_config` is idempotent at the JSON-value level: a second run
on the output of the first reproduces the same config content and keeps
the backup written by the first run (the backup rename is skipped once the
backup exists).  The hypothesis restricts to configs on which the Python
`in` tests and item assignments are dict operations. -/
theorem FixConfig.fix_config_idempotent (s : FixConfig.FsState)
    (h : FixConfig.wellShaped s.config = true) :
    (FixConfig.fix_config (FixConfig.fix_config s)).config =
      (FixConfig.fix_config s).config ∧
    (FixConfig.fix_config (FixConfig.fix_config s)).backup =
      (FixConfig.fix_config s).backup := by
  obtain ⟨c, b⟩ := s
  cases b <;> simp [FixConfig.fix_config, FixConfig.patchConfig_idem]

/-- Witness for C5 on a config with an empty `code_predictor_config` and
no pre-existing backup. -/
theorem FixConfig.fix_config_idempotent_witness :
    FixConfig.wellShaped
      (FixConfig.Json.obj [("talker_config",
        FixConfig.Json.obj [("code_predictor_config", FixConfig.Json.obj [])])]) = true ∧
    ((FixConfig.fix_config (FixConfig.fix_config
        ⟨FixConfig.Json.obj [("talker_config",
          FixConfig.Json.obj [("code_predictor_config", FixConfig.Json.obj [])])], none⟩)).config =
      (FixConfig.fix_config
        ⟨FixConfig.Json.obj [("talker_config",
          FixConfig.Json.obj [("code_predictor_config", FixConfig.Json.obj [])])], none⟩).config ∧
    (FixConfig.fix_config (FixConfig.fix_config
        ⟨FixConfig.Json.obj [("talker_config",
          FixConfig.Json.obj [("code_predictor_config", FixConfig.Json.obj [])])], none⟩)).backup =
      (FixConfig.fix_config
        ⟨FixConfig.Json.obj [("talker_config",
          FixConfig.Json.obj [("code_predictor_config", FixConfig.Json.obj [])])], none⟩).backup) :=
  ⟨rfl, FixConfig.fix_config_idempotent _ rfl⟩

/-- C6: on a config whose JSON content lacks `talker_config`, or whose
`talker_config` object lacks `code_predictor_config`, `fix_config` leaves
the config content unchanged at the JSON-value level (the file is still
re-serialized in place and a backup of the identical value is created). -/
theorem FixConfig.fix_config_frame (s : FixConfig.FsState)
    (h : s.config.hasKey "talker_config" = false ∨
      ∃ tc, s.config.getKey? "talker_config" = some tc ∧ tc.isObj = true ∧
        tc.hasKey "code_predictor_config" = false) :
    (FixConfig.fix_config s).config = s.config := by
  have hp : FixConfig.patchConfig s.config = s.config := by
    rcases h with h | ⟨tc, h1, -, h3⟩
    · cases hg : s.config.getKey? "talker_config" with
      | none => simp [FixConfig.patchConfig, hg]
      | some tc' =>
          exfalso
          simp only [FixConfig.Json.hasKey, hg, Option.isSome_some] at h
          exact absurd h (by simp)
    · cases hg : tc.getKey? "code_predictor_config" with
      | none => simp [FixConfig.patchConfig, h1, hg]
      | some c' =>
          exfalso
          simp only [FixConfig.Json.hasKey, hg, Option.isSome_some] at h3
          exact absurd h3 (by simp)
  obtain ⟨c, b⟩ := s
  cases b <;> simp_all [FixConfig.fix_config]

/-- Witness for C6 on a config with no `talker_config` key. -/
theorem FixConfig.fix_config_frame_witness :
    (FixConfig.fix_config
      ⟨FixConfig.Json.obj [("x", FixConfig.Json.num 1)], none⟩).config =
      FixConfig.Json.obj [("x", FixConfig.Json.num 1)] :=
  FixConfig.fix_config_frame ⟨FixConfig.Json.obj [("x", FixConfig.Json.num 1)], none⟩
    (Or.inl rfl)
